import Mathlib

/-!
Verification development for the `chatbot_with_RAG` repository (`src/main.py`).

The repository is a thin Streamlit front-end over a full-text search engine
(the Whoosh library).  The glue code in `src/main.py` — schema declaration,
`get_or_create_index`, `add_document_to_index`, `delete_document_from_index`,
`get_all_documents`, `add_initial_documents_on_startup` — is embedded here
directly.  The engine the glue calls into (writer, commit, search, open) is not
part of the repository sources, so those operations are modelled from the
specification (sections 3, 4.2, 4.3, 4.5 of the spec): each such definition is
marked `Modelled from the spec:` in its doc comment.

State is modelled functionally: an index is its list of live (committed,
published) documents; a writer is a buffered batch over a base index; I/O or
serialization failure during commit is an explicit boolean parameter;
`uuid.uuid4` is modelled as an injective fresh-identifier supply threaded as a
natural-number state.
-/

namespace SearchCore

/-- A stored document, per the schema of `src/main.py` lines 16-21:
`title` and `content` are stored full-text fields, `path` is the stored,
unique identifier field. -/
structure Doc where
  title : String
  content : String
  path : String
deriving DecidableEq, Repr

/-- A document as submitted to the writer: the unique identifier field may be
absent, which the schema validation must reject. -/
structure DocInput where
  title : String
  content : String
  path : Option String
deriving DecidableEq, Repr

/-- An index is its list of live published documents (the last committed
state).  Modelled from the spec: section 3 ("Index: ordered set of live
segments"), flattened to the sequence of live documents. -/
structure Index where
  docs : List Doc
deriving DecidableEq, Repr

/-- Error taxonomy of the spec, section 7, as explicit result variants. -/
inductive EngineError where
  | schemaViolation
  | corruptOrMissing
  | alreadyExists
  | commitFailed
deriving DecidableEq, Repr

/-- Characters kept by the tokenizer: alphanumeric, per the spec's
"tokenization on non-alphanumeric boundaries" (section 4.1). -/
def isTokenChar (c : Char) : Bool := c.isAlphanum

/-- Tokenizer worker: splits a character stream on non-alphanumeric
boundaries, lowercasing as it goes; `cur` is the current token, reversed. -/
def splitTokens : List Char → List Char → List (List Char)
  | [], [] => []
  | [], cur => [cur.reverse]
  | c :: rest, cur =>
    if isTokenChar c then splitTokens rest (c.toLower :: cur)
    else if cur.isEmpty then splitTokens rest []
    else cur.reverse :: splitTokens rest []

/-- Modelled from the spec: the Analyzer (section 4.1) — tokenize on
non-alphanumeric boundaries, lowercase fold, then a pluggable stemmer and a
configurable stop list; the pipeline is instantiated with the identity stemmer
and the empty stop list, both legal configurations per the spec. -/
def analyze (s : String) : List String :=
  (splitTokens s.data []).map List.asString

/-- The indexed terms of one field of a document, following the schema: the
`TEXT` fields `title` and `content` are analyzed, the `ID` field `path` is
indexed verbatim as a single term, any other field name yields nothing. -/
def fieldTerms (d : Doc) (f : String) : List String :=
  if f = "title" then analyze d.title
  else if f = "content" then analyze d.content
  else if f = "path" then [d.path]
  else []

/-- Query tree, per the spec section 3: the node variants exercised by the
glue code (exact term, boolean combinations, and whoosh's `Every`). -/
inductive Query where
  | Term (field value : String)
  | And (a b : Query)
  | Or (a b : Query)
  | Not (a : Query)
  | Every
deriving DecidableEq, Repr

/-- Modelled from the spec: whether a live document satisfies a query tree
(section 4.5, with the per-document view of the postings algebra: AND is
conjunction, OR disjunction, NOT complement, `Every` accepts all). -/
def matchesDoc (q : Query) (d : Doc) : Bool :=
  match q with
  | .Term f v => (fieldTerms d f).contains v
  | .And a b => matchesDoc a d && matchesDoc b d
  | .Or a b => matchesDoc a d || matchesDoc b d
  | .Not a => !(matchesDoc a d)
  | .Every => true

/-- Modelled from the spec: a Writer (section 4.3) is a transactional batch of
buffered additions and buffered deletion predicates over a base index. -/
structure Writer where
  base : Index
  bufferedAdds : List Doc
  bufferedDels : List Query
deriving DecidableEq, Repr

/-- `index.writer()`: a fresh writer with empty buffers. -/
def Index.writer (ix : Index) : Writer := ⟨ix, [], []⟩

/-- Modelled from the spec: `add(document)` validates against the schema —
it fails with `SchemaViolation` if the IDENTIFIER-unique field (`path`) is
absent — and otherwise buffers the document (section 4.3). -/
def Writer.addDocument (w : Writer) (d : DocInput) : Except EngineError Writer :=
  match d.path with
  | none => .error .schemaViolation
  | some p =>
    .ok { w with bufferedAdds := w.bufferedAdds ++ [⟨d.title, d.content, p⟩] }

/-- Modelled from the spec: `delete_by_term`/`delete_by_query` buffers a
deletion predicate (section 4.3); whoosh's `delete_by_query` also reports the
number of currently-matching documents. -/
def Writer.deleteByQuery (w : Writer) (q : Query) : Writer × Nat :=
  ({ w with bufferedDels := w.bufferedDels ++ [q] },
   (w.base.docs.filter (fun d => matchesDoc q d)).length)

/-- One upsert step: a newly committed document deletes every prior live
document carrying the same unique key, then becomes live itself. -/
def upsertOne (docs : List Doc) (d : Doc) : List Doc :=
  docs.filter (fun e => !(e.path == d.path)) ++ [d]

/-- Modelled from the spec: `commit()` (section 4.3) — atomically applies the
buffered deletions against the published documents, then the buffered
additions with upsert semantics (a document whose unique key already exists
deletes the prior occurrence); a failure during analysis or serialization
(the `ioFails` parameter) surfaces as `CommitFailed` and publishes nothing. -/
def Writer.commit (w : Writer) (ioFails : Bool) : Except EngineError Index :=
  if ioFails then .error .commitFailed
  else
    .ok ⟨w.bufferedAdds.foldl upsertOne
          (w.base.docs.filter (fun d => !(w.bufferedDels.any (fun q => matchesDoc q d))))⟩

/-- Modelled from the spec: `abort()` discards the buffer; the index stays at
its last-published state (section 4.3). -/
def Writer.abort (w : Writer) : Index := w.base

/-- A storage location: either it carries a valid index header with the
committed documents, or it does not (missing directory, empty directory, or
corrupt contents alike). -/
structure Storage where
  header : Option (List Doc)
deriving DecidableEq, Repr

/-- Modelled from the spec: `open_index(location)` (sections 4.2, 6, 9) —
fails with the `CorruptOrMissing` result variant, returned as a value rather
than raised, when no valid index header is found; it performs no recovery and
never recreates the index itself. -/
def open_index (s : Storage) : Except EngineError Index :=
  match s.header with
  | some ds => .ok ⟨ds⟩
  | none => .error .corruptOrMissing

/-- Modelled from the spec: `create_index` — initializes a fresh empty index
at the location, as whoosh `index.create_in` does. -/
def create_in (_s : Storage) : Index × Storage := (⟨[]⟩, ⟨some []⟩)

/-- Embeds `get_or_create_index` (`src/main.py` lines 24-44): try to open the
existing index; on any open failure the caller decides to create a new one. -/
def get_or_create_index (s : Storage) : Index × Storage :=
  match open_index s with
  | .ok ix => (ix, s)
  | .error _ => create_in s

/-- Modelled: `uuid.uuid4()` is a random fresh identifier; here it is an
injective function of a supply counter, capturing its uniqueness contract. -/
def uuidOfNat (n : Nat) : String := List.asString (List.replicate (n + 1) 'f')

/-- Drawing from the uuid supply: the fresh identifier plus the next state. -/
def uuid4 (n : Nat) : String × Nat := (uuidOfNat n, n + 1)

/-- The generated path of `src/main.py` line 56: the Python f-string
interpolating the current year and a fresh uuid4 value. -/
def genPath (year : Nat) (u : String) : String :=
  "/docs/" ++ toString year ++ "/" ++ u

/-- Python falsiness of the optional `path` argument (`if not path:`,
`src/main.py` line 54): absent or the empty string. -/
def pathBlank : Option String → Bool
  | none => true
  | some p => p == ""

/-- `if not path:` resolution of `src/main.py` lines 54-56: a blank path is
replaced by a freshly generated one, consuming the uuid supply. -/
def resolvePath (path? : Option String) (year n : Nat) : String × Nat :=
  if pathBlank path? then (genPath year (uuidOfNat n), n + 1)
  else (path?.getD "", n)

/-- Outcome of `add_document_to_index`: the resulting index, the advanced
uuid-supply state, the path actually used, and the surfaced error if any. -/
structure AddResult where
  index : Index
  uuidState : Nat
  usedPath : String
  error : Option EngineError
deriving DecidableEq, Repr

/-- Embeds `add_document_to_index` (`src/main.py` lines 52-64): resolve a
blank path to a generated one, open a writer, add the document and commit;
on any failure the writer is rolled back via `abort` and the error surfaces. -/
def add_document_to_index (ix : Index) (title content : String)
    (path? : Option String) (year n : Nat) (ioFails : Bool) : AddResult :=
  let pr := resolvePath path? year n
  match ix.writer.addDocument ⟨title, content, some pr.1⟩ with
  | .error e => ⟨ix.writer.abort, pr.2, pr.1, some e⟩
  | .ok w =>
    match w.commit ioFails with
    | .error e => ⟨w.abort, pr.2, pr.1, some e⟩
    | .ok ix' => ⟨ix', pr.2, pr.1, none⟩

/-- Outcome of `delete_document_from_index`: the resulting index, the number
of documents deleted, and the surfaced error if any. -/
structure DeleteResult where
  index : Index
  deletedCount : Nat
  error : Option EngineError
deriving DecidableEq, Repr

/-- Embeds `delete_document_from_index` (`src/main.py` lines 66-81): buffer a
deletion by exact term match on `path` and commit; on failure the writer is
rolled back via `abort` and the error surfaces. -/
def delete_document_from_index (ix : Index) (path_to_delete : String)
    (ioFails : Bool) : DeleteResult :=
  let wc := ix.writer.deleteByQuery (.Term "path" path_to_delete)
  match wc.1.commit ioFails with
  | .error e => ⟨wc.1.abort, wc.2, some e⟩
  | .ok ix' => ⟨ix', wc.2, none⟩

/-- Modelled from the spec: the evaluator's hit set for a query against a
fixed snapshot (section 4.5), as the list of live documents satisfying the
query tree. -/
def searchDocs (ix : Index) (q : Query) : List Doc :=
  ix.docs.filter (fun d => matchesDoc q d)

/-- Embeds `get_all_documents` (`src/main.py` lines 83-90): search with
whoosh's `Every()` query, no limit. -/
def get_all_documents (ix : Index) : List Doc :=
  searchDocs ix .Every

/-- Document-id view of evaluation: internal document ids are positions in
the live sequence; `evaluate` returns the ids of the matching documents. -/
def evaluateIds (ix : Index) (q : Query) : List Nat :=
  (ix.docs.enum.filter (fun p => matchesDoc q p.2)).map Prod.fst

/-- The ids of all live documents of the snapshot. -/
def liveIds (ix : Index) : List Nat := ix.docs.enum.map Prod.fst

/-- Term frequency: occurrences of the term among a field's indexed terms. -/
def tf (v : String) (ts : List String) : Nat := ts.count v

/-- Document frequency of a term across the corpus. -/
def df (ix : Index) (f v : String) : Nat :=
  (ix.docs.filter (fun d => (fieldTerms d f).contains v)).length

/-- Modelled from the spec: a TF-IDF-family relevance score (section 4.5) —
term frequency weighted by corpus rarity, summed over matched terms; kept in
the naturals, which preserves every property claimed of the ranking. -/
def scoreDoc (ix : Index) (d : Doc) : Query → Nat
  | .Term f v => tf v (fieldTerms d f) * ((ix.docs.length + 1) / (df ix f v + 1))
  | .And a b => scoreDoc ix d a + scoreDoc ix d b
  | .Or a b => scoreDoc ix d a + scoreDoc ix d b
  | .Not _ => 0
  | .Every => 0

/-- The scored hits of a query, one `(document id, score)` pair per matching
live document, in snapshot order. -/
def rankedHits (ix : Index) (q : Query) : List (Nat × Nat) :=
  (ix.docs.enum.filter (fun p => matchesDoc q p.2)).map
    (fun p => (p.1, scoreDoc ix p.2 q))

/-- The ranking order of the spec (section 4.5): higher score first, score
ties broken by ascending document identifier. -/
def rankLE (a b : Nat × Nat) : Bool :=
  decide (b.2 < a.2) || (decide (a.2 = b.2) && decide (a.1 ≤ b.1))

/-- Modelled from the spec: `searcher.search` (`src/main.py` lines 150-155)
in relevance mode — the scored hits merged into one globally ranked sequence,
ties broken by document identifier (section 4.5). -/
def searchRanked (ix : Index) (q : Query) : List (Nat × Nat) :=
  (rankedHits ix q).mergeSort rankLE

/-- Modelled from the spec: whoosh `Index.is_empty` — the index holds no live
documents. -/
def Index.is_empty (ix : Index) : Bool := ix.docs.isEmpty

/-- The five seed documents of `src/main.py` lines 95-101, verbatim. -/
def documents_to_add : List DocInput :=
  [⟨"Whoosh Introduction",
    "This document introduces the Whoosh library for Python. It covers basic indexing and searching concepts.",
    some "/docs/intro"⟩,
   ⟨"Advanced Whoosh Searching",
    "Learn about advanced search techniques in Whoosh, including boolean operators, phrase searching, and wildcards. It\x27s truly interesting for developers.",
    some "/docs/advanced"⟩,
   ⟨"Python Programming Basics",
    "Fundamental concepts of Python programming are discussed here. This is a basic introduction.",
    some "/docs/python_basics"⟩,
   ⟨"Interesting Algorithms",
    "Explore various interesting algorithms and data structures. This topic is quite interesting for computer science students.",
    some "/docs/algorithms"⟩,
   ⟨"Data Science with Python",
    "An overview of data science methodologies and how Python is used in this field.",
    some "/docs/data_science"⟩]

/-- Embeds `add_initial_documents_on_startup` (`src/main.py` lines 94-111):
when the index is empty, add the five seed documents through one writer and
commit; otherwise leave the index untouched. -/
def add_initial_documents_on_startup (ix : Index) : Index :=
  if ix.is_empty then
    match documents_to_add.foldl
        (fun acc d => Except.bind acc (fun w => w.addDocument d))
        (Except.ok ix.writer) with
    | .error _ => ix
    | .ok w =>
      match w.commit false with
      | .error _ => w.abort
      | .ok ix' => ix'
  else ix

/-! ## Helper lemmas -/

/-- Documents surviving a deletion of key `P` never match key `P` again. -/
theorem filter_path_filter_not (docs : List Doc) (P : String) :
    (docs.filter (fun e => !(e.path == P))).filter (fun e => e.path == P) = [] := by
  induction docs with
  | nil => rfl
  | cons d ds ih =>
    by_cases h : d.path = P <;> simp [List.filter_cons, h, ih]

/-- After an upsert of `D`, the documents carrying `D`'s key are exactly
`[D]`. -/
theorem filter_path_upsertOne (docs : List Doc) (D : Doc) :
    (upsertOne docs D).filter (fun e => e.path == D.path) = [D] := by
  simp [upsertOne, List.filter_append, filter_path_filter_not]

/-- An exact term query on the `path` field matches a document exactly when
its path equals the queried value. -/
theorem matchesDoc_term_path (p : String) (d : Doc) :
    matchesDoc (.Term "path" p) d = (d.path == p) := by
  by_cases h : p = d.path
  · subst h
    simp [matchesDoc, fieldTerms]
  · have h1 : (p == d.path) = false := beq_eq_false_iff_ne.mpr h
    have h2 : (d.path == p) = false :=
      beq_eq_false_iff_ne.mpr (fun hh => h hh.symm)
    simp [matchesDoc, fieldTerms, h1, h2]
    exact h

/-- Evaluation of `add_document_to_index` with a caller-supplied non-blank
path and no commit failure: the new document is upserted. -/
theorem add_success_eq (ix : Index) (t c p : String) (year n : Nat)
    (hp : p ≠ "") :
    add_document_to_index ix t c (some p) year n false =
      ⟨⟨upsertOne ix.docs ⟨t, c, p⟩⟩, n, p, none⟩ := by
  have hb : pathBlank (some p) = false := by simp [pathBlank, hp]
  simp [add_document_to_index, resolvePath, hb, Index.writer,
    Writer.addDocument, Writer.commit, upsertOne, List.filter_true]

/-- Evaluation of `add_document_to_index` with a blank path and no commit
failure: a fresh path is generated and the document upserted. -/
theorem add_blank_eq (ix : Index) (t c : String) (p? : Option String)
    (year n : Nat) (h : pathBlank p? = true) :
    add_document_to_index ix t c p? year n false =
      ⟨⟨upsertOne ix.docs ⟨t, c, genPath year (uuidOfNat n)⟩⟩, n + 1,
        genPath year (uuidOfNat n), none⟩ := by
  simp [add_document_to_index, resolvePath, h, Index.writer,
    Writer.addDocument, Writer.commit, upsertOne, List.filter_true]

/-- Evaluation of `delete_document_from_index` with no commit failure. -/
theorem delete_eq (ix : Index) (p : String) :
    delete_document_from_index ix p false =
      ⟨⟨ix.docs.filter (fun d => !(d.path == p))⟩,
        (ix.docs.filter (fun d => d.path == p)).length, none⟩ := by
  simp [delete_document_from_index, Writer.deleteByQuery, Index.writer,
    Writer.commit, matchesDoc_term_path]

/-! ## Claims -/

/-- C1: for every index state and every document `D` whose unique-key field
(`path`) equals the key of an already-indexed document, committing `D` via
the add operation leaves exactly one live document with that key, and its
stored fields are those of `D` (the latest submission). -/
theorem upsert_unique_key (ix : Index) (D : Doc) (year n : Nat)
    (_hdup : ∃ d ∈ ix.docs, d.path = D.path) (hp : D.path ≠ "") :
    ((add_document_to_index ix D.title D.content (some D.path) year n
        false).index.docs.filter (fun e => e.path == D.path)) = [D] := by
  rw [add_success_eq ix D.title D.content D.path year n hp]
  exact filter_path_upsertOne ix.docs D

/-- Witness for C1 at a concrete duplicate-key submission. -/
theorem upsert_unique_key_witness :
    ((add_document_to_index ⟨[⟨"a", "b", "/p"⟩]⟩ "x" "y" (some "/p") 2026 0
        false).index.docs.filter (fun e => e.path == "/p")) =
      [⟨"x", "y", "/p"⟩] :=
  upsert_unique_key ⟨[⟨"a", "b", "/p"⟩]⟩ ⟨"x", "y", "/p"⟩ 2026 0
    (by decide) (by decide)

/-- C2: for every storage location with no valid index header, the open
operation fails with the `CorruptOrMissing` result variant, returned as a
value rather than raised, and does not itself recreate the index — the
caller (`get_or_create_index`) is the one that decides to recreate. -/
theorem open_corrupt_or_missing (s : Storage) (h : s.header = none) :
    open_index s = .error .corruptOrMissing ∧
    get_or_create_index s = (⟨[]⟩, ⟨some []⟩) := by
  simp [open_index, get_or_create_index, create_in, h]

/-- Witness for C2 at a concrete headerless location. -/
theorem open_corrupt_or_missing_witness :
    open_index ⟨none⟩ = .error .corruptOrMissing ∧
    get_or_create_index ⟨none⟩ = (⟨[]⟩, ⟨some []⟩) :=
  open_corrupt_or_missing ⟨none⟩ rfl

/-- C3: for every document submitted to the writer's add operation with the
IDENTIFIER-unique field (`path`) absent, the operation fails with
`SchemaViolation` and the document is not buffered (no successful writer
state exists, so nothing can be committed or indexed). -/
theorem add_missing_identifier_schema_violation (w : Writer) (d : DocInput)
    (h : d.path = none) :
    w.addDocument d = .error .schemaViolation ∧
    ∀ w2 : Writer, w.addDocument d ≠ .ok w2 := by
  refine ⟨by simp [Writer.addDocument, h], ?_⟩
  intro w2 hc
  simp [Writer.addDocument, h] at hc

/-- Witness for C3 at a concrete path-less document. -/
theorem add_missing_identifier_schema_violation_witness :
    (Index.writer ⟨[]⟩).addDocument ⟨"t", "c", none⟩ =
        .error .schemaViolation ∧
    ∀ w2 : Writer, (Index.writer ⟨[]⟩).addDocument ⟨"t", "c", none⟩ ≠
        .ok w2 :=
  add_missing_identifier_schema_violation (Index.writer ⟨[]⟩)
    ⟨"t", "c", none⟩ rfl

/-- C4: when a failure occurs during analysis or serialization of a commit,
both the add and the delete operation surface `CommitFailed`, the writer is
rolled back via `abort`, and the index remains exactly at its last-published
state — no document of the batch becomes visible. -/
theorem commit_failure_atomic (ix : Index) (t c : String)
    (path? : Option String) (year n : Nat) (p : String) :
    (add_document_to_index ix t c path? year n true).index = ix ∧
    (add_document_to_index ix t c path? year n true).error =
        some .commitFailed ∧
    (delete_document_from_index ix p true).index = ix ∧
    (delete_document_from_index ix p true).error = some .commitFailed := by
  refine ⟨?_, ?_, ?_, ?_⟩ <;>
    simp [add_document_to_index, delete_document_from_index, resolvePath,
      Index.writer, Writer.addDocument, Writer.commit, Writer.abort,
      Writer.deleteByQuery]

/-- C5: for every valid document, adding it and committing, then querying
its unique identifier value via an exact-match query on `path`, returns
exactly one hit whose stored fields are those of the document. -/
theorem round_trip_exact_match (ix : Index) (t c p : String) (year n : Nat)
    (hp : p ≠ "") :
    searchDocs (add_document_to_index ix t c (some p) year n false).index
        (.Term "path" p) = [⟨t, c, p⟩] := by
  rw [add_success_eq ix t c p year n hp]
  have h := filter_path_upsertOne ix.docs ⟨t, c, p⟩
  simpa [searchDocs, matchesDoc_term_path] using h

/-- Witness for C5 at a concrete document over a nonempty prior index. -/
theorem round_trip_exact_match_witness :
    searchDocs (add_document_to_index ⟨[⟨"a", "b", "/q"⟩]⟩ "x" "y"
        (some "/r") 2026 0 false).index (.Term "path" "/r") =
      [⟨"x", "y", "/r"⟩] :=
  round_trip_exact_match ⟨[⟨"a", "b", "/q"⟩]⟩ "x" "y" "/r" 2026 0 (by decide)

/-- Splitting the live documents at a key: the survivors and the deleted
ones together account for every live document. -/
theorem length_filter_path (docs : List Doc) (p : String) :
    (docs.filter (fun d => !(d.path == p))).length +
      (docs.filter (fun d => d.path == p)).length = docs.length := by
  induction docs with
  | nil => rfl
  | cons d ds ih =>
    by_cases h : d.path = p
    · simp [List.filter_cons, h]
      omega
    · have h1 : (d.path == p) = false := beq_eq_false_iff_ne.mpr h
      simp [List.filter_cons, h1]
      omega

/-- C6: deleting by an exact term match on `path` and committing removes
exactly the documents with that path — no subsequent query result contains
them, the reported deleted count is the number of live documents that bore
the path, and the live-document count decreases by that number (by one when
the path was unique). -/
theorem delete_by_path_removes (ix : Index) (p : String)
    (_hmem : ∃ d ∈ ix.docs, d.path = p) :
    (∀ q d, d ∈ searchDocs (delete_document_from_index ix p false).index q →
        d.path ≠ p) ∧
    (delete_document_from_index ix p false).deletedCount =
        (ix.docs.filter (fun d => d.path == p)).length ∧
    (delete_document_from_index ix p false).index.docs.length +
        (delete_document_from_index ix p false).deletedCount =
        ix.docs.length ∧
    ((ix.docs.filter (fun d => d.path == p)).length = 1 →
      (delete_document_from_index ix p false).index.docs.length + 1 =
        ix.docs.length) := by
  rw [delete_eq]
  dsimp only
  refine ⟨?_, rfl, ?_, ?_⟩
  · intro q d hd
    have hd2 : d ∈ ix.docs.filter (fun e => !(e.path == p)) :=
      (List.mem_filter.mp hd).1
    have h3 := (List.mem_filter.mp hd2).2
    simpa using h3
  · exact length_filter_path ix.docs p
  · intro h1
    have h2 := length_filter_path ix.docs p
    omega

/-- Witness for C6: deleting `/b` from the three-document scenario of the
spec leaves exactly the other two documents and decrements the count by
one. -/
theorem delete_by_path_removes_witness :
    (∀ q d,
        d ∈ searchDocs (delete_document_from_index
            ⟨[⟨"ta", "first document", "/a"⟩, ⟨"tb", "second document", "/b"⟩,
              ⟨"tc", "third document", "/c"⟩]⟩ "/b" false).index q →
          d.path ≠ "/b") ∧
    (delete_document_from_index
        ⟨[⟨"ta", "first document", "/a"⟩, ⟨"tb", "second document", "/b"⟩,
          ⟨"tc", "third document", "/c"⟩]⟩ "/b" false).deletedCount =
      ([⟨"ta", "first document", "/a"⟩, ⟨"tb", "second document", "/b"⟩,
        ⟨"tc", "third document", "/c"⟩].filter
          (fun d : Doc => d.path == "/b")).length ∧
    (delete_document_from_index
        ⟨[⟨"ta", "first document", "/a"⟩, ⟨"tb", "second document", "/b"⟩,
          ⟨"tc", "third document", "/c"⟩]⟩ "/b" false).index.docs.length +
      (delete_document_from_index
        ⟨[⟨"ta", "first document", "/a"⟩, ⟨"tb", "second document", "/b"⟩,
          ⟨"tc", "third document", "/c"⟩]⟩ "/b" false).deletedCount = 3 ∧
    (([⟨"ta", "first document", "/a"⟩, ⟨"tb", "second document", "/b"⟩,
        ⟨"tc", "third document", "/c"⟩].filter
          (fun d : Doc => d.path == "/b")).length = 1 →
      (delete_document_from_index
        ⟨[⟨"ta", "first document", "/a"⟩, ⟨"tb", "second document", "/b"⟩,
          ⟨"tc", "third document", "/c"⟩]⟩ "/b" false).index.docs.length + 1 =
        3) :=
  delete_by_path_removes
    ⟨[⟨"ta", "first document", "/a"⟩, ⟨"tb", "second document", "/b"⟩,
      ⟨"tc", "third document", "/c"⟩]⟩ "/b" (by decide)

/-- Membership in the evaluated id set: an id is returned exactly when the
document living at that id matches the query. -/
theorem mem_evaluateIds {ix : Index} {q : Query} {i : Nat} :
    i ∈ evaluateIds ix q ↔
      ∃ d, (i, d) ∈ ix.docs.enum ∧ matchesDoc q d = true := by
  simp only [evaluateIds, List.mem_map, List.mem_filter]
  constructor
  · rintro ⟨⟨j, d⟩, ⟨hm, hq⟩, h1⟩
    exact ⟨d, by simpa [← h1] using hm, hq⟩
  · rintro ⟨d, hm, hq⟩
    exact ⟨(i, d), ⟨hm, hq⟩, rfl⟩

/-- Membership in the live id set. -/
theorem mem_liveIds {ix : Index} {i : Nat} :
    i ∈ liveIds ix ↔ ∃ d, (i, d) ∈ ix.docs.enum := by
  simp only [liveIds, List.mem_map]
  constructor
  · rintro ⟨⟨j, d⟩, hm, h1⟩
    exact ⟨d, by simpa [← h1] using hm⟩
  · rintro ⟨d, hm⟩
    exact ⟨(i, d), hm, rfl⟩

/-- Each internal id designates a unique live document. -/
theorem enum_doc_unique {l : List Doc} {i : Nat} {d d2 : Doc}
    (h : (i, d) ∈ l.enum) (h2 : (i, d2) ∈ l.enum) : d = d2 := by
  rw [List.mk_mem_enum_iff_getElem?] at h h2
  rw [h] at h2
  exact Option.some_inj.mp h2

/-- C7: over a fixed snapshot, the document-id set of `A AND B` is contained
in the intersection of those of `A` and of `B`, the id set of `A OR B` is
exactly their union, and the id set of `NOT A` is exactly the complement of
`A`'s id set within the live document set. -/
theorem boolean_algebra_eval (ix : Index) (A B : Query) (i : Nat) :
    (i ∈ evaluateIds ix (.And A B) →
        i ∈ evaluateIds ix A ∧ i ∈ evaluateIds ix B) ∧
    (i ∈ evaluateIds ix (.Or A B) ↔
        (i ∈ evaluateIds ix A ∨ i ∈ evaluateIds ix B)) ∧
    (i ∈ evaluateIds ix (.Not A) ↔
        (i ∈ liveIds ix ∧ i ∉ evaluateIds ix A)) := by
  refine ⟨?_, ⟨?_, ?_⟩, ⟨?_, ?_⟩⟩
  · intro h
    obtain ⟨d, hm, hq⟩ := mem_evaluateIds.mp h
    rw [show matchesDoc (.And A B) d = (matchesDoc A d && matchesDoc B d)
      from rfl, Bool.and_eq_true] at hq
    exact ⟨mem_evaluateIds.mpr ⟨d, hm, hq.1⟩,
      mem_evaluateIds.mpr ⟨d, hm, hq.2⟩⟩
  · intro h
    obtain ⟨d, hm, hq⟩ := mem_evaluateIds.mp h
    rw [show matchesDoc (.Or A B) d = (matchesDoc A d || matchesDoc B d)
      from rfl, Bool.or_eq_true] at hq
    cases hq with
    | inl hq => exact Or.inl (mem_evaluateIds.mpr ⟨d, hm, hq⟩)
    | inr hq => exact Or.inr (mem_evaluateIds.mpr ⟨d, hm, hq⟩)
  · intro h
    cases h with
    | inl h =>
      obtain ⟨d, hm, hq⟩ := mem_evaluateIds.mp h
      exact mem_evaluateIds.mpr ⟨d, hm, by simp [matchesDoc, hq]⟩
    | inr h =>
      obtain ⟨d, hm, hq⟩ := mem_evaluateIds.mp h
      exact mem_evaluateIds.mpr ⟨d, hm, by simp [matchesDoc, hq]⟩
  · intro h
    obtain ⟨d, hm, hq⟩ := mem_evaluateIds.mp h
    rw [show matchesDoc (.Not A) d = !(matchesDoc A d) from rfl,
      Bool.not_eq_true'] at hq
    refine ⟨mem_liveIds.mpr ⟨d, hm⟩, ?_⟩
    intro hc
    obtain ⟨d2, hm2, hq2⟩ := mem_evaluateIds.mp hc
    rw [enum_doc_unique hm2 hm] at hq2
    rw [hq] at hq2
    exact Bool.false_ne_true hq2
  · rintro ⟨hl, hn⟩
    obtain ⟨d, hm⟩ := mem_liveIds.mp hl
    refine mem_evaluateIds.mpr ⟨d, hm, ?_⟩
    rw [show matchesDoc (.Not A) d = !(matchesDoc A d) from rfl,
      Bool.not_eq_true']
    by_contra hc
    have hq : matchesDoc A d = true := by
      cases hb : matchesDoc A d
      · exact absurd hb hc
      · rfl
    exact hn (mem_evaluateIds.mpr ⟨d, hm, hq⟩)

/-- Witness for C7: the boolean algebra laws discharged on a concrete
two-document snapshot, extracting concrete memberships through the AND
inclusion. -/
theorem boolean_algebra_eval_witness :
    0 ∈ evaluateIds ⟨[⟨"t", "alpha beta", "/a"⟩, ⟨"u", "beta", "/b"⟩]⟩
        (.Term "content" "alpha") ∧
    0 ∈ evaluateIds ⟨[⟨"t", "alpha beta", "/a"⟩, ⟨"u", "beta", "/b"⟩]⟩
        (.Term "content" "beta") :=
  (boolean_algebra_eval ⟨[⟨"t", "alpha beta", "/a"⟩, ⟨"u", "beta", "/b"⟩]⟩
      (.Term "content" "alpha") (.Term "content" "beta") 0).1 (by decide)

/-- The ranking order, unfolded to arithmetic. -/
theorem rankLE_iff {a b : Nat × Nat} :
    rankLE a b = true ↔ (b.2 < a.2 ∨ (a.2 = b.2 ∧ a.1 ≤ b.1)) := by
  simp [rankLE]

/-- The ranking order is transitive. -/
theorem rankLE_trans (a b c : Nat × Nat) (hab : rankLE a b)
    (hbc : rankLE b c) : rankLE a c := by
  rw [rankLE_iff] at hab hbc ⊢
  omega

/-- The ranking order is total. -/
theorem rankLE_total (a b : Nat × Nat) : rankLE a b || rankLE b a := by
  rw [Bool.or_eq_true, rankLE_iff, rankLE_iff]
  omega

/-- The ranking order is antisymmetric: tie-breaking by document identifier
leaves no two distinct hits order-equivalent. -/
theorem rankLE_antisymm (a b : Nat × Nat) (hab : rankLE a b = true)
    (hba : rankLE b a = true) : a = b := by
  obtain ⟨a1, a2⟩ := a
  obtain ⟨b1, b2⟩ := b
  rw [rankLE_iff] at hab hba
  simp only [Prod.mk.injEq]
  constructor <;> omega

/-- C8: evaluation of a query tree against a fixed snapshot is
deterministic — the ranked output is a permutation of the scored hit set,
it is ordered by descending score with ties broken by ascending document
identifier, and it is the unique such sequence: any ordering of the same
hits respecting that ranking is equal to it, so repeated evaluations
produce identical ordered results (same documents, same order, same
scores). -/
theorem deterministic_ranked_results (ix : Index) (q : Query) :
    (searchRanked ix q).Perm (rankedHits ix q) ∧
    List.Pairwise (fun a b => rankLE a b = true) (searchRanked ix q) ∧
    (∀ l : List (Nat × Nat), l.Perm (rankedHits ix q) →
      List.Pairwise (fun a b => rankLE a b = true) l →
      l = searchRanked ix q) := by
  have hperm : (searchRanked ix q).Perm (rankedHits ix q) :=
    List.mergeSort_perm (rankedHits ix q) rankLE
  have hsor : List.Pairwise (fun a b => rankLE a b = true)
      (searchRanked ix q) :=
    List.sorted_mergeSort rankLE_trans rankLE_total (rankedHits ix q)
  refine ⟨hperm, hsor, ?_⟩
  intro l hp hs
  haveI : IsAntisymm (Nat × Nat) (fun a b => rankLE a b = true) :=
    ⟨rankLE_antisymm⟩
  exact List.eq_of_perm_of_sorted (hp.trans hperm.symm) hs hsor

/-- Witness for C8: on a concrete snapshot the unique rank-respecting
ordering of the hits is exactly the search output, here with a score tie
broken by document identifier. -/
theorem deterministic_ranked_results_witness :
    [(0, 1), (1, 1)] = searchRanked
      ⟨[⟨"t1", "second document here", "/a"⟩, ⟨"t2", "first document", "/b"⟩,
        ⟨"t3", "nothing", "/c"⟩]⟩ (.Term "content" "document") :=
  (deterministic_ranked_results
      ⟨[⟨"t1", "second document here", "/a"⟩, ⟨"t2", "first document", "/b"⟩,
        ⟨"t3", "nothing", "/c"⟩]⟩ (.Term "content" "document")).2.2
    [(0, 1), (1, 1)] (by decide) (by decide)

/-- The uuid supply is injective: distinct draws give distinct values. -/
theorem uuidOfNat_injective (m n : Nat) (h : uuidOfNat m = uuidOfNat n) :
    m = n := by
  have hl := congrArg (fun s => s.data.length) h
  simpa [uuidOfNat, List.asString] using hl

/-- Generated paths with the same year and distinct uuids are distinct. -/
theorem genPath_ne (year : Nat) (u v : String) (h : u ≠ v) :
    genPath year u ≠ genPath year v := by
  intro hc
  apply h
  have hd := congrArg String.data hc
  simp only [genPath, String.data_append, List.append_assoc,
    List.append_right_inj] at hd
  exact String.ext hd

/-- A generated path is never the empty string. -/
theorem genPath_ne_empty (year : Nat) (u : String) : genPath year u ≠ "" := by
  intro hc
  have hd := congrArg String.data hc
  simp only [genPath, String.data_append, List.append_assoc] at hd
  have h6 : ("/docs/" : String).data = [] := (List.append_eq_nil.mp hd).1
  have : ("/docs/" : String) = "" := String.ext h6
  exact absurd this (by decide)

/-- C9: when the `path` argument is omitted or empty, a fresh path of the
form `/docs/<current year>/<uuid4>` is generated before indexing, the
indexed document carries that non-empty path, and a second such call (drawing
the next uuid) generates a distinct path. -/
theorem auto_generated_paths (ix : Index) (t c t2 c2 : String)
    (p p2 : Option String) (year n : Nat) (h : pathBlank p = true)
    (h2 : pathBlank p2 = true) :
    (add_document_to_index ix t c p year n false).usedPath =
        genPath year (uuidOfNat n) ∧
    (add_document_to_index ix t c p year n false).usedPath ≠ "" ∧
    Doc.mk t c (genPath year (uuidOfNat n)) ∈
        (add_document_to_index ix t c p year n false).index.docs ∧
    (add_document_to_index (add_document_to_index ix t c p year n false).index
        t2 c2 p2 year
        (add_document_to_index ix t c p year n false).uuidState
        false).usedPath ≠
      (add_document_to_index ix t c p year n false).usedPath := by
  rw [add_blank_eq ix t c p year n h]
  dsimp only
  rw [add_blank_eq _ t2 c2 p2 year (n + 1) h2]
  dsimp only
  refine ⟨rfl, genPath_ne_empty year (uuidOfNat n), ?_, ?_⟩
  · exact List.mem_append_right _ (List.mem_singleton.mpr rfl)
  · exact genPath_ne year (uuidOfNat (n + 1)) (uuidOfNat n)
      (fun hu => Nat.succ_ne_self n (uuidOfNat_injective (n + 1) n hu))

/-- Witness for C9 at a concrete omitted-path call. -/
theorem auto_generated_paths_witness :
    (add_document_to_index ⟨[]⟩ "t" "c" none 2026 0 false).usedPath =
        genPath 2026 (uuidOfNat 0) ∧
    (add_document_to_index ⟨[]⟩ "t" "c" none 2026 0 false).usedPath ≠ "" ∧
    Doc.mk "t" "c" (genPath 2026 (uuidOfNat 0)) ∈
        (add_document_to_index ⟨[]⟩ "t" "c" none 2026 0 false).index.docs ∧
    (add_document_to_index
        (add_document_to_index ⟨[]⟩ "t" "c" none 2026 0 false).index
        "u" "d" (some "") 2026
        (add_document_to_index ⟨[]⟩ "t" "c" none 2026 0 false).uuidState
        false).usedPath ≠
      (add_document_to_index ⟨[]⟩ "t" "c" none 2026 0 false).usedPath :=
  auto_generated_paths ⟨[]⟩ "t" "c" "u" "d" none (some "") 2026 0
    (by decide) (by decide)

/-- C10: the startup population adds exactly the five predefined seed
documents when and only when the index is empty; an index already holding
any document is left entirely unchanged. -/
theorem startup_seed_population (ix : Index) :
    (ix.docs = [] → add_initial_documents_on_startup ix =
        ⟨documents_to_add.map (fun d => ⟨d.title, d.content, d.path.getD ""⟩)⟩) ∧
    (ix.docs ≠ [] → add_initial_documents_on_startup ix = ix) := by
  obtain ⟨docs⟩ := ix
  constructor
  · intro h
    subst h
    rfl
  · intro h
    have he : Index.is_empty ⟨docs⟩ = false := by
      simpa [Index.is_empty, List.isEmpty_iff] using h
    simp [add_initial_documents_on_startup, he]

/-- Witness for C10: the empty index receives exactly the five seed
documents; a nonempty index is untouched. -/
theorem startup_seed_population_witness :
    add_initial_documents_on_startup ⟨[]⟩ =
        ⟨documents_to_add.map (fun d => ⟨d.title, d.content, d.path.getD ""⟩)⟩ ∧
    add_initial_documents_on_startup ⟨[⟨"a", "b", "/p"⟩]⟩ =
        ⟨[⟨"a", "b", "/p"⟩]⟩ :=
  ⟨(startup_seed_population ⟨[]⟩).1 rfl,
   (startup_seed_population ⟨[⟨"a", "b", "/p"⟩]⟩).2 (by decide)⟩

end SearchCore
